import Mathlib

/-!
Shallow embedding of the standard-script classification, extraction and
construction code of the dcrd `txscript` package (`src/txscript/standard.go`)
and of the staging reimplementation
(`src/internal/staging/stdscript/scriptv0.go`).

Scripts are byte strings, modelled as `List Nat` (each element a byte value).
Go byte-slice indexing that is guarded by a length check in the source is
modelled with `List.getD`; a Go `nil` slice result is `Option.none`.
-/

namespace DcrdStandard

/-! ### Opcode values

Numeric opcode constants of the script language.  The values for the small
integer range are fixed by the spec ("values 1-16 map to opcodes that push the
literal integer 1-16; the numeric value equals `opcode_value - 80`"); the rest
are the byte values the program compares against. -/

def OP_0 : Nat := 0x00
def OP_DATA_1 : Nat := 0x01
def OP_DATA_20 : Nat := 0x14
def OP_DATA_32 : Nat := 0x20
def OP_DATA_33 : Nat := 0x21
def OP_DATA_37 : Nat := 0x25
def OP_DATA_65 : Nat := 0x41
def OP_DATA_75 : Nat := 0x4b
def OP_PUSHDATA1 : Nat := 0x4c
def OP_PUSHDATA2 : Nat := 0x4d
def OP_PUSHDATA4 : Nat := 0x4e
def OP_1NEGATE : Nat := 0x4f
def OP_1 : Nat := 0x51
def OP_16 : Nat := 0x60
def OP_IF : Nat := 0x63
def OP_ELSE : Nat := 0x67
def OP_ENDIF : Nat := 0x68
def OP_RETURN : Nat := 0x6a
def OP_DROP : Nat := 0x75
def OP_DUP : Nat := 0x76
def OP_SIZE : Nat := 0x82
def OP_EQUAL : Nat := 0x87
def OP_EQUALVERIFY : Nat := 0x88
def OP_SHA256 : Nat := 0xa8
def OP_HASH160 : Nat := 0xa9
def OP_CHECKSIG : Nat := 0xac
def OP_CHECKSIGVERIFY : Nat := 0xad
def OP_CHECKMULTISIG : Nat := 0xae
def OP_CHECKMULTISIGVERIFY : Nat := 0xaf
def OP_CHECKLOCKTIMEVERIFY : Nat := 0xb1
def OP_SSTX : Nat := 0xba
def OP_SSGEN : Nat := 0xbb
def OP_SSRTX : Nat := 0xbc
def OP_SSTXCHANGE : Nat := 0xbd
def OP_CHECKSIGALT : Nat := 0xbe

/-- Signature scheme identifiers of the `dcrec` package
(spec §3: ECDSA-secp256k1, Ed25519, Schnorr-secp256k1; value 0 is the
default ECDSA scheme and is "disabled" as an alt-scheme tag). -/
def STEcdsaSecp256k1 : Nat := 0
def STEd25519 : Nat := 1
def STSchnorrSecp256k1 : Nat := 2

/-! ### Decoded operations and the tokenizer -/

/-- A decoded script operation: an opcode value plus the pushed data when the
opcode is a data push (`none` for plain opcodes, mirroring a Go `nil` slice). -/
structure POp where
  op : Nat
  data : Option (List Nat)
  deriving Repr, DecidableEq

/-- Modelled from the spec: the opcode tokenizer (§2, §6).  It is consumed by
this subsystem but lives outside `src/`.  One step: decode the opcode at the
head of the script and, for a data-push opcode, its declared payload
(`OP_DATA_1`..`OP_DATA_75` carry their value in bytes; `OP_PUSHDATA1/2/4`
carry a 1/2/4-byte little-endian length), enforcing that the declared push
length is satisfiable by the remaining bytes; returns the decoded operation
and the unconsumed remainder, or `none` on a malformed push. -/
def nextToken : List Nat → Option (POp × List Nat)
  | [] => none
  | op :: rest =>
    if 1 ≤ op ∧ op ≤ 75 then
      if rest.length < op then none
      else some (⟨op, some (rest.take op)⟩, rest.drop op)
    else if op = OP_PUSHDATA1 then
      match rest with
      | [] => none
      | l :: r => if r.length < l then none
                  else some (⟨op, some (r.take l)⟩, r.drop l)
    else if op = OP_PUSHDATA2 then
      match rest with
      | l0 :: l1 :: r =>
        let l := l0 + l1 * 256
        if r.length < l then none else some (⟨op, some (r.take l)⟩, r.drop l)
      | _ => none
    else if op = OP_PUSHDATA4 then
      match rest with
      | l0 :: l1 :: l2 :: l3 :: r =>
        let l := l0 + l1 * 256 + l2 * 65536 + l3 * 16777216
        if r.length < l then none else some (⟨op, some (r.take l)⟩, r.drop l)
      | _ => none
    else some (⟨op, none⟩, rest)

/-- Fuel-driven iteration of `nextToken`; with fuel at least the script length
the fuel never runs out since every token consumes at least one byte. -/
def tokenizeFuel : Nat → List Nat → Option (List POp)
  | _, [] => some []
  | 0, _ :: _ => none
  | fuel + 1, a :: t =>
    match nextToken (a :: t) with
    | none => none
    | some (p, rest) =>
      match tokenizeFuel fuel rest with
      | none => none
      | some ps => some (p :: ps)

/-- Modelled from the spec: the full script parser (`parseScript` in the
source), yielding the decoded operation sequence or `none` when the script
does not parse. -/
def parseScript (s : List Nat) : Option (List POp) :=
  tokenizeFuel s.length s

/-! ### Small helpers shared by the matchers (modelled collaborators) -/

/-- Modelled from the spec: `isSmallInt` — whether the opcode is `OP_0` or one
of the small-integer opcodes `OP_1`..`OP_16` (§3). -/
def isSmallInt (op : Nat) : Bool :=
  decide (op = OP_0 ∨ (OP_1 ≤ op ∧ op ≤ OP_16))

/-- Modelled from the spec: `asSmallInt` — the literal value 0-16 encoded by a
small-integer opcode (`opcode_value - 80` for `OP_1`..`OP_16`, 0 for `OP_0`). -/
def asSmallInt (op : Nat) : Nat :=
  if op = OP_0 then 0 else op - (OP_1 - 1)

/-- Modelled from the spec: `isStrictPubKeyEncoding` — the elliptic-curve
collaborator's strict-encoding check usable without a full parse (§6): a
33-byte compressed key starting 0x02/0x03 or a 65-byte uncompressed key
starting 0x04. -/
def isStrictPubKeyEncoding (pk : List Nat) : Bool :=
  decide ((pk.length = 33 ∧ (pk.getD 0 0 = 0x02 ∨ pk.getD 0 0 = 0x03)) ∨
          (pk.length = 65 ∧ pk.getD 0 0 = 0x04))

/-- Modelled from the spec: `IsStrictCompressedPubKeyEncoding` — the
strict-compressed-key-encoding validation used by the staging code (§4.2):
exactly 33 bytes starting 0x02/0x03. -/
def IsStrictCompressedPubKeyEncoding (pk : List Nat) : Bool :=
  decide (pk.length = 33 ∧ (pk.getD 0 0 = 0x02 ∨ pk.getD 0 0 = 0x03))

/-- Modelled from the spec: the pay-to-script-hash matcher (`extractScriptHash`):
`OP_HASH160 OP_DATA_20 <20-byte hash> OP_EQUAL`, length 23, payload the 20
hash bytes. -/
def extractScriptHash (s : List Nat) : Option (List Nat) :=
  if s.length = 23 ∧ s.getD 0 0 = OP_HASH160 ∧ s.getD 1 0 = OP_DATA_20 ∧
     s.getD 22 0 = OP_EQUAL then
    some ((s.drop 2).take 20)
  else none

/-- Modelled from the spec: `isScriptHashScript`. -/
def isScriptHashScript (s : List Nat) : Bool :=
  (extractScriptHash s).isSome

/-! ### Script classes (`src/txscript/standard.go` lines 30-64)

`ScriptClass` is a byte-valued enumeration in the source; we keep it as `Nat`
so the `String` method's table lookup can be modelled exactly. -/

def NonStandardTy : Nat := 0
def PubKeyTy : Nat := 1
def PubKeyHashTy : Nat := 2
def ScriptHashTy : Nat := 3
def MultiSigTy : Nat := 4
def NullDataTy : Nat := 5
def StakeSubmissionTy : Nat := 6
def StakeGenTy : Nat := 7
def StakeRevocationTy : Nat := 8
def StakeSubChangeTy : Nat := 9
def PubkeyAltTy : Nat := 10
def PubkeyHashAltTy : Nat := 11

/-- The human-readable class-name table (`scriptClassToName`), a 12-entry
slice indexed by the class value. -/
def scriptClassToName : List String :=
  ["nonstandard", "pubkey", "pubkeyhash", "scripthash", "multisig",
   "nulldata", "stakesubmission", "stakegen", "stakerevoke", "sstxchange",
   "pubkeyalt", "pubkeyhashalt"]

/-- The `String` method of `ScriptClass`: the source guards the table lookup
with `int(t) > len(scriptClassToName) || int(t) < 0` and otherwise evaluates
`scriptClassToName[t]`.  An in-range Go index yields the element; an
out-of-range Go index is a runtime panic, modelled here by `none`
(`List.get?` is `none` exactly when the index is out of range). -/
def scriptClassString (t : Nat) : Option String :=
  if t > scriptClassToName.length then some "Invalid"
  else scriptClassToName.get? t

/-! ### Fixed-length template matchers (`standard.go` lines 266-434) -/

/-- `extractCompressedPubKey` (lines 266-282): length 35,
`OP_DATA_33 <33-byte key starting 0x02/0x03> OP_CHECKSIG`. -/
def extractCompressedPubKey (s : List Nat) : Option (List Nat) :=
  if s.length = 35 ∧ s.getD 34 0 = OP_CHECKSIG ∧ s.getD 0 0 = OP_DATA_33 ∧
     (s.getD 1 0 = 0x02 ∨ s.getD 1 0 = 0x03) then
    some ((s.drop 1).take 33)
  else none

/-- `extractUncompressedPubKey` (lines 284-300): length 67,
`OP_DATA_65 <65-byte key starting 0x04> OP_CHECKSIG`. -/
def extractUncompressedPubKey (s : List Nat) : Option (List Nat) :=
  if s.length = 67 ∧ s.getD 66 0 = OP_CHECKSIG ∧ s.getD 0 0 = OP_DATA_65 ∧
     s.getD 1 0 = 0x04 then
    some ((s.drop 1).take 65)
  else none

/-- `extractPubKey` (lines 302-311): compressed first, then uncompressed. -/
def extractPubKey (s : List Nat) : Option (List Nat) :=
  match extractCompressedPubKey s with
  | some pk => some pk
  | none => extractUncompressedPubKey s

/-- `isPubKeyScript` (lines 313-318). -/
def isPubKeyScript (s : List Nat) : Bool :=
  (extractPubKey s).isSome

/-- `extractPubKeyAltDetails` (lines 320-356): fail fast unless the script has
length at least 3 and ends in `OP_CHECKSIGALT`; then the Ed25519 shape
(length 35, `OP_DATA_32`, scheme byte `STEd25519` at offset 33) or the
Schnorr shape (length 36, `OP_DATA_33`, scheme byte `STSchnorrSecp256k1` at
offset 34, strict-encoded key). -/
def extractPubKeyAltDetails (s : List Nat) : Option (List Nat × Nat) :=
  if s.length < 3 ∨ s.getLast? ≠ some OP_CHECKSIGALT then none
  else if s.length = 35 ∧ s.getD 0 0 = OP_DATA_32 ∧
          isSmallInt (s.getD 33 0) ∧ asSmallInt (s.getD 33 0) = STEd25519 then
    some ((s.drop 1).take 32, STEd25519)
  else if s.length = 36 ∧ s.getD 0 0 = OP_DATA_33 ∧
          isSmallInt (s.getD 34 0) ∧
          asSmallInt (s.getD 34 0) = STSchnorrSecp256k1 ∧
          isStrictPubKeyEncoding ((s.drop 1).take 33) then
    some ((s.drop 1).take 33, STSchnorrSecp256k1)
  else none

/-- `isPubKeyAltScript` (lines 358-363). -/
def isPubKeyAltScript (s : List Nat) : Bool :=
  (extractPubKeyAltDetails s).isSome

/-- `extractPubKeyHash` (lines 365-381): length 25,
`OP_DUP OP_HASH160 OP_DATA_20 <20 bytes> OP_EQUALVERIFY OP_CHECKSIG`. -/
def extractPubKeyHash (s : List Nat) : Option (List Nat) :=
  if s.length = 25 ∧ s.getD 0 0 = OP_DUP ∧ s.getD 1 0 = OP_HASH160 ∧
     s.getD 2 0 = OP_DATA_20 ∧ s.getD 23 0 = OP_EQUALVERIFY ∧
     s.getD 24 0 = OP_CHECKSIG then
    some ((s.drop 3).take 20)
  else none

/-- `isPubKeyHashScript` (lines 383-387). -/
def isPubKeyHashScript (s : List Nat) : Bool :=
  (extractPubKeyHash s).isSome

/-- `isStandardAltSignatureType` (lines 389-398). -/
def isStandardAltSignatureType (op : Nat) : Bool :=
  isSmallInt op &&
    (decide (asSmallInt op = STEd25519) || decide (asSmallInt op = STSchnorrSecp256k1))

/-- `extractPubKeyHashAltDetails` (lines 400-427): length 26,
`DUP HASH160 OP_DATA_20 <20 bytes> EQUALVERIFY <scheme> CHECKSIGALT`. -/
def extractPubKeyHashAltDetails (s : List Nat) : Option (List Nat × Nat) :=
  if s.length = 26 ∧ s.getD 0 0 = OP_DUP ∧ s.getD 1 0 = OP_HASH160 ∧
     s.getD 2 0 = OP_DATA_20 ∧ s.getD 23 0 = OP_EQUALVERIFY ∧
     isStandardAltSignatureType (s.getD 24 0) ∧ s.getD 25 0 = OP_CHECKSIGALT then
    some ((s.drop 3).take 20, asSmallInt (s.getD 24 0))
  else none

/-- `isPubKeyHashAltScript` (lines 429-434). -/
def isPubKeyHashAltScript (s : List Nat) : Bool :=
  (extractPubKeyHashAltDetails s).isSome

/-! ### Multisig matcher (`standard.go` lines 120-229) -/

/-- `multiSigDetails` (lines 120-126). -/
structure MultiSigDetails where
  requiredSigs : Nat
  numPubKeys : Nat
  pubKeys : List (List Nat)
  valid : Bool
  deriving Repr, DecidableEq

/-- The pubkey-consuming loop of `extractMultisigScriptDetails`
(lines 171-180): tokens are consumed while each decodes as a strict-encoded
public key; returns the key count, the collected keys, the first
non-key token and the remainder after it, or `none` when the tokenizer
finishes or errors before a non-key token appears (`tokenizer.Done()`). -/
def msLoop : Nat → List Nat → Nat → List (List Nat) →
    Option (Nat × List (List Nat) × POp × List Nat)
  | _, [], _, _ => none
  | 0, _ :: _, _, _ => none
  | fuel + 1, a :: t, n, acc =>
    match nextToken (a :: t) with
    | none => none
    | some (p, rest) =>
      match p.data with
      | some d =>
        if isStrictPubKeyEncoding d then msLoop fuel rest (n + 1) (acc ++ [d])
        else some (n, acc, p, rest)
      | none => some (n, acc, p, rest)

/-- `extractMultisigScriptDetails` (lines 140-204).  The script must end in
`OP_CHECKMULTISIG` and have length at least 3; the first token must be a
small integer (the required-signature count); then pubkey tokens are
consumed; the next token must be a small integer equal to the pubkey count;
exactly one unparsed byte (the `OP_CHECKMULTISIG`) may remain. -/
def extractMultisigScriptDetails (scriptVersion : Nat) (script : List Nat)
    (extractPubKeys : Bool) : MultiSigDetails :=
  if scriptVersion ≠ 0 then ⟨0, 0, [], false⟩
  else if script.length < 3 ∨ script.getLast? ≠ some OP_CHECKMULTISIG then
    ⟨0, 0, [], false⟩
  else
    match nextToken script with
    | none => ⟨0, 0, [], false⟩
    | some (p, rest) =>
      if ¬ isSmallInt p.op then ⟨0, 0, [], false⟩
      else
        let requiredSigs := asSmallInt p.op
        match msLoop rest.length rest 0 [] with
        | none => ⟨0, 0, [], false⟩
        | some (numPubKeys, keys, bp, brest) =>
          if ¬ (isSmallInt bp.op ∧ asSmallInt bp.op = numPubKeys) then
            ⟨0, 0, [], false⟩
          else if brest.length ≠ 1 then ⟨0, 0, [], false⟩
          else ⟨requiredSigs, numPubKeys,
                if extractPubKeys then keys else [], true⟩

/-- `isMultisigScript` (lines 206-216). -/
def isMultisigScript (scriptVersion : Nat) (script : List Nat) : Bool :=
  (extractMultisigScriptDetails scriptVersion script false).valid

/-! ### Null-data and stake matchers (`standard.go` lines 436-593) -/

/-- `MaxDataCarrierSize` (lines 19-22). -/
def MaxDataCarrierSize : Nat := 256

/-- `isNullDataScript` (lines 436-469): version 0 only; must start with
`OP_RETURN`; a lone `OP_RETURN` matches; otherwise the remainder must
tokenize as exactly one operation that is a small integer or a data push
(opcode at most `OP_PUSHDATA4`) of at most `MaxDataCarrierSize` bytes. -/
def isNullDataScript (scriptVersion : Nat) (s : List Nat) : Bool :=
  if scriptVersion ≠ 0 then false
  else if s.length < 1 ∨ s.getD 0 0 ≠ OP_RETURN then false
  else if s.length = 1 then true
  else
    match nextToken (s.drop 1) with
    | some (p, []) =>
      (isSmallInt p.op || decide (p.op ≤ OP_PUSHDATA4)) &&
        decide ((p.data.getD []).length ≤ MaxDataCarrierSize)
    | _ => false

/-- `extractStakePubKeyHash` (lines 471-486): the stake opcode prefix followed
by a pay-to-pubkey-hash body. -/
def extractStakePubKeyHash (s : List Nat) (stakeOpcode : Nat) : Option (List Nat) :=
  if s.length < 1 ∨ s.getD 0 0 ≠ stakeOpcode then none
  else extractPubKeyHash (s.drop 1)

/-- `extractStakeScriptHash` (lines 488-503). -/
def extractStakeScriptHash (s : List Nat) (stakeOpcode : Nat) : Option (List Nat) :=
  if s.length < 1 ∨ s.getD 0 0 ≠ stakeOpcode then none
  else extractScriptHash (s.drop 1)

/-- `isStakeSubmissionScript` (lines 505-521). -/
def isStakeSubmissionScript (scriptVersion : Nat) (s : List Nat) : Bool :=
  if scriptVersion ≠ 0 then false
  else (extractStakePubKeyHash s OP_SSTX).isSome ||
       (extractStakeScriptHash s OP_SSTX).isSome

/-- `isStakeGen` (lines 523-545): a 6-operation P2PKH-shaped body or a
4-operation P2SH-shaped body prefixed by `OP_SSGEN`. -/
def isStakeGen (pops : List POp) : Bool :=
  match pops with
  | [a, b, c, d, e, f] =>
    a.op == OP_SSGEN && b.op == OP_DUP && c.op == OP_HASH160 &&
    d.op == OP_DATA_20 && e.op == OP_EQUALVERIFY && f.op == OP_CHECKSIG
  | [a, b, c, d] =>
    a.op == OP_SSGEN && b.op == OP_HASH160 && c.op == OP_DATA_20 &&
    d.op == OP_EQUAL
  | _ => false

/-- `isStakeRevocation` (lines 547-569). -/
def isStakeRevocation (pops : List POp) : Bool :=
  match pops with
  | [a, b, c, d, e, f] =>
    a.op == OP_SSRTX && b.op == OP_DUP && c.op == OP_HASH160 &&
    d.op == OP_DATA_20 && e.op == OP_EQUALVERIFY && f.op == OP_CHECKSIG
  | [a, b, c, d] =>
    a.op == OP_SSRTX && b.op == OP_HASH160 && c.op == OP_DATA_20 &&
    d.op == OP_EQUAL
  | _ => false

/-- `isSStxChange` (lines 571-593). -/
def isSStxChange (pops : List POp) : Bool :=
  match pops with
  | [a, b, c, d, e, f] =>
    a.op == OP_SSTXCHANGE && b.op == OP_DUP && c.op == OP_HASH160 &&
    d.op == OP_DATA_20 && e.op == OP_EQUALVERIFY && f.op == OP_CHECKSIG
  | [a, b, c, d] =>
    a.op == OP_SSTXCHANGE && b.op == OP_HASH160 && c.op == OP_DATA_20 &&
    d.op == OP_EQUAL
  | _ => false

/-! ### The classifier (`standard.go` lines 595-650) -/

/-- `typeOfScript` (lines 600-639). -/
def typeOfScript (scriptVersion : Nat) (script : List Nat) : Nat :=
  if scriptVersion ≠ 0 then NonStandardTy
  else if isPubKeyScript script then PubKeyTy
  else if isPubKeyAltScript script then PubkeyAltTy
  else if isPubKeyHashScript script then PubKeyHashTy
  else if isPubKeyHashAltScript script then PubkeyHashAltTy
  else if isScriptHashScript script then ScriptHashTy
  else if isMultisigScript scriptVersion script then MultiSigTy
  else if isNullDataScript scriptVersion script then NullDataTy
  else if isStakeSubmissionScript scriptVersion script then StakeSubmissionTy
  else
    match parseScript script with
    | none => NonStandardTy
    | some pops =>
      if isStakeGen pops then StakeGenTy
      else if isStakeRevocation pops then StakeRevocationTy
      else if isSStxChange pops then StakeSubChangeTy
      else NonStandardTy

/-- Modelled from the spec: `DefaultScriptVersion` — only script version 0 is
defined (§3). -/
def DefaultScriptVersion : Nat := 0

/-- `GetScriptClass` (lines 641-650). -/
def GetScriptClass (version : Nat) (script : List Nat) : Nat :=
  if version ≠ DefaultScriptVersion then NonStandardTy
  else typeOfScript version script

/-! ### Script-info analyzer (`standard.go` lines 652-867) -/

/-- Modelled from the spec: `MaxPubKeysPerMultiSig` — the policy cap on the
number of public keys in a multisig script (used as the imprecise sigop
count for a multisig-verify opcode). -/
def MaxPubKeysPerMultiSig : Nat := 20

/-- Modelled from the spec: `isPushOnly` — every operation of the signature
script must be a data push (opcode at most `OP_16`). -/
def isPushOnly (pops : List POp) : Bool :=
  pops.all (fun p => decide (p.op ≤ OP_16))

/-- Modelled from the spec: `getSigOpCount` — the signature-operation count of
a decoded script (§4.6): each checksig-family opcode counts 1; a
multisig-verify opcode counts the preceding small-integer key count when
counting precisely (falling back to `MaxPubKeysPerMultiSig`). -/
def getSigOpCount (pops : List POp) (precise : Bool) : Nat :=
  (List.range pops.length).foldl
    (fun nSigs i =>
      let op := (pops.getD i ⟨0, none⟩).op
      if op = OP_CHECKSIG ∨ op = OP_CHECKSIGVERIFY ∨ op = OP_CHECKSIGALT then
        nSigs + 1
      else if op = OP_CHECKMULTISIG ∨ op = OP_CHECKMULTISIGVERIFY then
        let prev := (pops.getD (i - 1) ⟨0, none⟩).op
        if precise ∧ 0 < i ∧ OP_1 ≤ prev ∧ prev ≤ OP_16 then
          nSigs + asSmallInt prev
        else nSigs + MaxPubKeysPerMultiSig
      else nSigs) 0

/-- `expectedInputs` (lines 652-709).  The source indexes `pops[0]` in the
multisig case, whose precondition (the class really is the class of `pops`)
guarantees the list is non-empty; `headD` supplies the never-used default. -/
def expectedInputs (pops : List POp) (class_ subclass : Nat) : Int :=
  if class_ = PubKeyTy then 1
  else if class_ = PubKeyHashTy then 2
  else if class_ = StakeSubmissionTy then
    (if subclass = PubKeyHashTy then 2 else 1)
  else if class_ = StakeGenTy then
    (if subclass = PubKeyHashTy then 2 else 1)
  else if class_ = StakeRevocationTy then
    (if subclass = PubKeyHashTy then 2 else 1)
  else if class_ = StakeSubChangeTy then
    (if subclass = PubKeyHashTy then 2 else 1)
  else if class_ = ScriptHashTy then 1
  else if class_ = MultiSigTy then
    Int.ofNat (asSmallInt (pops.headD ⟨0, none⟩).op)
  else -1

/-- `ScriptInfo` (lines 711-728). -/
structure ScriptInfo where
  pkScriptClass : Nat
  numInputs : Nat
  expectedInputsCount : Int
  sigOps : Nat
  deriving Repr, DecidableEq

/-- `GetStakeOutSubclass` (lines 746-772): the script must fully parse; the
class must be a stake class; the subclass is the classification of the
script with the stake opcode stripped (`getStakeOutSubscript`). -/
def GetStakeOutSubclass (pkScript : List Nat) : Option Nat :=
  match parseScript pkScript with
  | none => none
  | some _ =>
    let class_ := typeOfScript 0 pkScript
    if class_ = StakeSubmissionTy ∨ class_ = StakeGenTy ∨
       class_ = StakeRevocationTy ∨ class_ = StakeSubChangeTy then
      some (typeOfScript 0 (pkScript.drop 1))
    else none

/-- Failure modes of `CalcScriptInfo`: a script that does not parse, a
signature script that is not push-only, a failing stake-subclass lookup, and
the out-of-range index `sigPops[len(sigPops)-1]` the source evaluates on an
empty signature script in the legacy-compat pay-to-script-hash branch (a Go
runtime panic, kept distinct from the ordinary errors). -/
inductive CalcErr where
  | parseFailure
  | notPushOnly
  | stakeSubclass
  | indexPanic
  deriving Repr, DecidableEq

/-- `CalcScriptInfo` (lines 807-867). -/
def CalcScriptInfo (sigScript pkScript : List Nat) (bip16 : Bool) :
    Except CalcErr ScriptInfo :=
  match parseScript sigScript with
  | none => .error .parseFailure
  | some sigPops =>
    match parseScript pkScript with
    | none => .error .parseFailure
    | some pkPops =>
      let class_ := typeOfScript 0 pkScript
      if ¬ isPushOnly sigPops then .error .notPushOnly
      else
        let subRes : Except CalcErr Nat :=
          if class_ = StakeSubmissionTy ∨ class_ = StakeGenTy ∨
             class_ = StakeRevocationTy ∨ class_ = StakeSubChangeTy then
            match GetStakeOutSubclass pkScript with
            | none => .error .stakeSubclass
            | some sc => .ok sc
          else .ok 0
        match subRes with
        | .error e => .error e
        | .ok subClass =>
          let expIn := expectedInputs pkPops class_ subClass
          let numIn := sigPops.length
          if (class_ = ScriptHashTy ∨ subClass = ScriptHashTy) ∧ bip16 = true then
            match sigPops.getLast? with
            | none => .error .indexPanic
            | some lastPop =>
              let redeem := lastPop.data.getD []
              match parseScript redeem with
              | none => .error .parseFailure
              | some shPops =>
                let redeemClass := typeOfScript 0 redeem
                let shInputs := expectedInputs shPops redeemClass 0
                let expIn' := if shInputs = -1 then -1 else expIn + shInputs
                .ok ⟨class_, numIn, expIn', getSigOpCount shPops true⟩
          else .ok ⟨class_, numIn, expIn, getSigOpCount pkPops true⟩

/-- `MultisigRedeemScriptFromScriptSig` (lines 895-907): parse the signature
script and return the final operation's pushed data.  On a script that
parses to zero operations the source evaluates `pops[len(pops)-1]`, a Go
runtime panic, modelled by the outer `none`; the inner value is the Go
`(data, error)` pair (`.error` a recoverable parse error, `.ok` the final
push data, which is the Go `nil` slice when the final operation pushes
nothing). -/
def MultisigRedeemScriptFromScriptSig (script : List Nat) :
    Option (Except Unit (Option (List Nat))) :=
  match parseScript script with
  | none => some (.error ())
  | some pops =>
    match pops.getLast? with
    | none => none
    | some p => some (.ok p.data)

/-! ### Builders (`standard.go` lines 909-1286) -/

/-- Little-endian byte serialization of `v` into `n` bytes (the
`binary.LittleEndian.PutUintNN` calls of the source). -/
def leBytes : Nat → Nat → List Nat
  | 0, _ => []
  | n + 1, v => (v % 256) :: leBytes n (v / 256)

/-- Modelled from the spec: the script builder's `AddData` — the canonical
minimal push encoding for a byte payload: small-integer opcodes for the
empty payload and single bytes 0-16 and 0x81, a direct `OP_DATA_n` for up to
75 bytes, and the shortest `OP_PUSHDATA` form beyond that. -/
def addData (data : List Nat) : List Nat :=
  if data.length = 0 then [OP_0]
  else if data.length = 1 ∧ data.getD 0 0 = 0 then [OP_0]
  else if data.length = 1 ∧ 1 ≤ data.getD 0 0 ∧ data.getD 0 0 ≤ 16 then
    [(OP_1 - 1) + data.getD 0 0]
  else if data.length = 1 ∧ data.getD 0 0 = 0x81 then [OP_1NEGATE]
  else if data.length ≤ 75 then data.length :: data
  else if data.length ≤ 0xff then OP_PUSHDATA1 :: data.length :: data
  else if data.length ≤ 0xffff then
    OP_PUSHDATA2 :: leBytes 2 data.length ++ data
  else OP_PUSHDATA4 :: leBytes 4 data.length ++ data

/-- The supported destination-address variants of the stake builders
(`dcrutil.AddressPubKeyHash` carrying its signature scheme, and
`dcrutil.AddressScriptHash`); every other address type is the builders'
unsupported-address error. -/
inductive StdAddress where
  | pubKeyHash (hash : List Nat) (dsa : Nat)
  | scriptHash (hash : List Nat)
  | unsupported
  deriving Repr, DecidableEq

/-- The `copy(adBytes[0:20], addr.ScriptAddress())` of the source: a 20-byte
destination pre-zeroed, overwritten by up to 20 bytes of the hash. -/
def copy20 (hash : List Nat) : List Nat :=
  (hash.take 20) ++ List.replicate (20 - hash.length) 0

/-- `GenerateSStxAddrPush` (lines 1209-1252): for a supported address, build
the 30-byte structure hash(20) ++ little-endian amount(8) ++ little-endian
fee limits(2), set the top bit of byte 27 (the final amount byte) when the
address is a script hash, and emit `OP_RETURN` followed by the canonical
push of those 30 bytes.  A pay-to-pubkey-hash address with a non-ECDSA
scheme, or an unsupported address, is a construction error (`none`). -/
def GenerateSStxAddrPush (addr : StdAddress) (amount limits : Nat) :
    Option (List Nat) :=
  let build : List Nat → Bool → List Nat := fun hash isScriptHash =>
    let adBytes := copy20 hash ++ leBytes 8 (amount % 2 ^ 64) ++
      leBytes 2 (limits % 2 ^ 16)
    let adBytes :=
      if isScriptHash then adBytes.set 27 ((adBytes.getD 27 0) ||| 0x80)
      else adBytes
    OP_RETURN :: addData adBytes
  match addr with
  | .pubKeyHash hash dsa =>
    if dsa ≠ STEcdsaSecp256k1 then none else some (build hash false)
  | .scriptHash hash => some (build hash true)
  | .unsupported => none

/-! ### Atomic swap extractor (`standard.go` lines 1631-1711) -/

/-- Modelled from the spec: `canonicalPush` — whether a decoded operation uses
the minimal push encoding for its payload (§4.6 "canonical-push"): a single
byte 0-16 must use a small-integer opcode, and each `OP_PUSHDATA` form must
only be used when the payload does not fit a shorter form. -/
def canonicalPush (p : POp) : Bool :=
  let data := p.data.getD []
  let dataLen := data.length
  if p.op > OP_16 then true
  else if p.op < OP_PUSHDATA1 ∧ OP_0 < p.op ∧ dataLen = 1 ∧ data.getD 0 0 ≤ 16 then
    false
  else if p.op = OP_PUSHDATA1 ∧ dataLen < OP_PUSHDATA1 then false
  else if p.op = OP_PUSHDATA2 ∧ dataLen ≤ 0xff then false
  else if p.op = OP_PUSHDATA4 ∧ dataLen ≤ 0xffff then false
  else true

/-- The value of a little-endian byte string. -/
def leNat : List Nat → Nat
  | [] => 0
  | b :: rest => b + 256 * leNat rest

/-- Modelled from the spec: the minimal-encoding check of script numbers —
a trailing byte carrying only the sign bit is allowed only when the byte
before it has its high bit set. -/
def checkMinimalDataEncoding (v : List Nat) : Bool :=
  match v.getLast? with
  | none => true
  | some last =>
    if last % 128 = 0 then
      decide (v.length > 1) && decide ((v.getD (v.length - 2) 0) ≥ 128)
    else true

/-- The integer encoded by a little-endian sign-magnitude script number: the
high bit of the final byte is the sign. -/
def scriptNumValue (v : List Nat) : Int :=
  match v.getLast? with
  | none => 0
  | some last =>
    let mag := leNat (v.take (v.length - 1) ++ [last % 128])
    if last ≥ 128 then -(mag : Int) else (mag : Int)

/-- Modelled from the spec: `makeScriptNum` — decode a byte payload as a
script number of at most `numLen` bytes (§4.6 "decoded as a script-number,
maximum 5 bytes"), requiring minimal encoding; `none` is the decode error. -/
def makeScriptNum (v : List Nat) (numLen : Nat) : Option Int :=
  if v.length > numLen then none
  else if ¬ checkMinimalDataEncoding v then none
  else some (scriptNumValue v)

/-- `AtomicSwapDataPushes` (lines 1631-1638). -/
structure AtomicSwapDataPushes where
  recipientHash160 : List Nat
  refundHash160 : List Nat
  secretHash : List Nat
  secretSize : Int
  lockTime : Int
  deriving Repr, DecidableEq

/-- The 20-operation structural template test of
`ExtractAtomicSwapDataPushes` (lines 1660-1679), evaluated on a decoded
operation sequence already known to have exactly 20 operations. -/
def atomicSwapShape (pops : List POp) : Bool :=
  let opAt := fun i => (pops.getD i ⟨0, none⟩).op
  opAt 0 == OP_IF && opAt 1 == OP_SIZE && canonicalPush (pops.getD 2 ⟨0, none⟩) &&
  opAt 3 == OP_EQUALVERIFY && opAt 4 == OP_SHA256 && opAt 5 == OP_DATA_32 &&
  opAt 6 == OP_EQUALVERIFY && opAt 7 == OP_DUP && opAt 8 == OP_HASH160 &&
  opAt 9 == OP_DATA_20 && opAt 10 == OP_ELSE &&
  canonicalPush (pops.getD 11 ⟨0, none⟩) && opAt 12 == OP_CHECKLOCKTIMEVERIFY &&
  opAt 13 == OP_DROP && opAt 14 == OP_DUP && opAt 15 == OP_HASH160 &&
  opAt 16 == OP_DATA_20 && opAt 17 == OP_ENDIF && opAt 18 == OP_EQUALVERIFY &&
  opAt 19 == OP_CHECKSIG

/-- The decode of one of the two canonical numeric operands (lines 1688-1709):
a pushed payload decodes as a script number of at most 5 bytes; an operation
without payload must be a small-integer opcode. -/
def swapNum (p : POp) : Option Int :=
  match p.data with
  | some d => makeScriptNum d 5
  | none => if isSmallInt p.op then some (Int.ofNat (asSmallInt p.op)) else none

/-- `ExtractAtomicSwapDataPushes` (lines 1651-1711).  `.error` is the
unparsable-script error; `.ok none` is the no-match result; `.ok (some _)`
carries the extracted pushes.  The `version` argument is accepted and, as in
the source, never consulted. -/
def ExtractAtomicSwapDataPushes (version : Nat) (pkScript : List Nat) :
    Except Unit (Option AtomicSwapDataPushes) :=
  match parseScript pkScript with
  | none => .error ()
  | some pops =>
    if pops.length ≠ 20 then .ok none
    else if ¬ atomicSwapShape pops then .ok none
    else
      let dataAt := fun i => ((pops.getD i ⟨0, none⟩).data).getD []
      match swapNum (pops.getD 2 ⟨0, none⟩) with
      | none => .ok none
      | some secretSize =>
        match swapNum (pops.getD 11 ⟨0, none⟩) with
        | none => .ok none
        | some lockTime =>
          .ok (some ⟨dataAt 9, dataAt 16, dataAt 5, secretSize, lockTime⟩)

/-! ### Staging reimplementation
(`src/internal/staging/stdscript/scriptv0.go`) -/

/-- The `ScriptType` enumeration of the staging `stdscript` package (only the
members exercised by `DetermineScriptTypeV0` in the surveyed file are
needed). -/
def STNonStandard : Nat := 0
def STPubKeyEcdsaSecp256k1 : Nat := 1
def STPubKeyEd25519 : Nat := 2
def STPubKeySchnorrSecp256k1 : Nat := 3

/-- `ExtractCompressedPubKeyV0` (scriptv0.go lines 15-28). -/
def ExtractCompressedPubKeyV0 (s : List Nat) : Option (List Nat) :=
  if s.length = 35 ∧ s.getD 34 0 = OP_CHECKSIG ∧ s.getD 0 0 = OP_DATA_33 ∧
     (s.getD 1 0 = 0x02 ∨ s.getD 1 0 = 0x03) then
    some ((s.drop 1).take 33)
  else none

/-- `ExtractUncompressedPubKeyV0` (scriptv0.go lines 30-46). -/
def ExtractUncompressedPubKeyV0 (s : List Nat) : Option (List Nat) :=
  if s.length = 67 ∧ s.getD 66 0 = OP_CHECKSIG ∧ s.getD 0 0 = OP_DATA_65 ∧
     s.getD 1 0 = 0x04 then
    some ((s.drop 1).take 65)
  else none

/-- `ExtractPubKeyV0` (scriptv0.go lines 48-57). -/
def ExtractPubKeyV0 (s : List Nat) : Option (List Nat) :=
  match ExtractCompressedPubKeyV0 s with
  | some pk => some pk
  | none => ExtractUncompressedPubKeyV0 s

/-- `IsPubKeyScriptV0` (scriptv0.go lines 59-64). -/
def IsPubKeyScriptV0 (s : List Nat) : Bool :=
  (ExtractPubKeyV0 s).isSome

/-- `ExtractPubKeyAltDetailsV0` (scriptv0.go lines 66-103); unlike the
original `extractPubKeyAltDetails` it validates the Schnorr key with
`IsStrictCompressedPubKeyEncoding`. -/
def ExtractPubKeyAltDetailsV0 (s : List Nat) : Option (List Nat × Nat) :=
  if s.length < 3 ∨ s.getLast? ≠ some OP_CHECKSIGALT then none
  else if s.length = 35 ∧ s.getD 0 0 = OP_DATA_32 ∧
          isSmallInt (s.getD 33 0) ∧ asSmallInt (s.getD 33 0) = STEd25519 then
    some ((s.drop 1).take 32, STEd25519)
  else if s.length = 36 ∧ s.getD 0 0 = OP_DATA_33 ∧
          isSmallInt (s.getD 34 0) ∧
          asSmallInt (s.getD 34 0) = STSchnorrSecp256k1 ∧
          IsStrictCompressedPubKeyEncoding ((s.drop 1).take 33) then
    some ((s.drop 1).take 33, STSchnorrSecp256k1)
  else none

/-- `IsPubKeyEd25519ScriptV0` (scriptv0.go lines 105-110). -/
def IsPubKeyEd25519ScriptV0 (s : List Nat) : Bool :=
  match ExtractPubKeyAltDetailsV0 s with
  | some (_, sigType) => sigType == STEd25519
  | none => false

/-- `IsPubKeySchnorrSecp256k1ScriptV0` (scriptv0.go lines 112-117). -/
def IsPubKeySchnorrSecp256k1ScriptV0 (s : List Nat) : Bool :=
  match ExtractPubKeyAltDetailsV0 s with
  | some (_, sigType) => sigType == STSchnorrSecp256k1
  | none => false

/-- `DetermineScriptTypeV0` (scriptv0.go lines 119-135). -/
def DetermineScriptTypeV0 (script : List Nat) : Nat :=
  if IsPubKeyScriptV0 script then STPubKeyEcdsaSecp256k1
  else if IsPubKeyEd25519ScriptV0 script then STPubKeyEd25519
  else if IsPubKeySchnorrSecp256k1ScriptV0 script then STPubKeySchnorrSecp256k1
  else STNonStandard

/-! ## Tokenizer infrastructure lemmas -/

/-- Every decoded token consumes at least one byte of the script. -/
theorem nextToken_length {s : List Nat} {p : POp} {rest : List Nat}
    (h : nextToken s = some (p, rest)) : rest.length < s.length := by
  match s with
  | [] => simp [nextToken] at h
  | op :: tail =>
    simp only [nextToken] at h
    repeat' split at h
    all_goals simp at h
    all_goals obtain ⟨h1, h2⟩ := h
    all_goals subst h2
    all_goals simp only [List.length_cons, List.length_drop]
    all_goals omega

/-- Surplus fuel does not change the tokenizer's result. -/
theorem tokenizeFuel_succ (f : Nat) (s : List Nat) (hf : s.length ≤ f) :
    tokenizeFuel (f + 1) s = tokenizeFuel f s := by
  induction f generalizing s with
  | zero =>
    match s with
    | [] => rfl
    | a :: t => simp at hf
  | succ f ih =>
    match s with
    | [] => rfl
    | a :: t =>
      simp only [List.length_cons] at hf
      rw [tokenizeFuel, tokenizeFuel]
      cases hn : nextToken (a :: t) with
      | none => rfl
      | some pr =>
        obtain ⟨p, rest⟩ := pr
        dsimp only
        have hr : rest.length ≤ f := by
          have := nextToken_length hn
          simp only [List.length_cons] at this
          omega
        rw [ih rest hr]

/-- Any sufficient fuel computes `parseScript`. -/
theorem tokenizeFuel_eq_parseScript (f : Nat) (s : List Nat)
    (hf : s.length ≤ f) : tokenizeFuel f s = parseScript s := by
  unfold parseScript
  induction f with
  | zero =>
    have hs : s = [] := List.eq_nil_of_length_eq_zero (Nat.le_zero.mp hf)
    subst hs
    rfl
  | succ f ih =>
    rcases Nat.lt_or_ge s.length (f + 1) with hlt | hge
    · have h1 : s.length ≤ f := Nat.lt_succ_iff.mp hlt
      rw [tokenizeFuel_succ f s h1, ih h1]
    · have : s.length = f + 1 := Nat.le_antisymm hf hge
      rw [this]

/-- One-step unfolding of `parseScript` on a non-empty script. -/
theorem parseScript_cons (a : Nat) (t : List Nat) :
    parseScript (a :: t) =
      match nextToken (a :: t) with
      | none => none
      | some (p, rest) =>
        match parseScript rest with
        | none => none
        | some ps => some (p :: ps) := by
  conv_lhs => rw [parseScript]
  simp only [List.length_cons]
  rw [tokenizeFuel]
  cases hn : nextToken (a :: t) with
  | none => rfl
  | some pr =>
    obtain ⟨p, rest⟩ := pr
    dsimp only
    have hr : rest.length ≤ t.length := by
      have := nextToken_length hn
      simp only [List.length_cons] at this
      omega
    rw [tokenizeFuel_eq_parseScript t.length rest hr]

/-! ## Example scripts used by witnesses -/

/-- A standard pay-to-pubkey-hash script. -/
def p2pkhExample : List Nat :=
  [OP_DUP, OP_HASH160, OP_DATA_20] ++ List.replicate 20 7 ++
    [OP_EQUALVERIFY, OP_CHECKSIG]

/-- A standard pay-to-script-hash script. -/
def p2shExample : List Nat :=
  [OP_HASH160, OP_DATA_20] ++ List.replicate 20 9 ++ [OP_EQUAL]

/-- A standard 1-of-1 multisig script with a strict-encoded compressed key. -/
def ms11Example : List Nat :=
  [OP_1, OP_DATA_33, 0x02] ++ List.replicate 32 5 ++ [OP_1, OP_CHECKMULTISIG]

/-! ## Claim theorems -/

/-- C1: for script version 0 the classifier evaluates the template matchers in
the fixed order pay-to-pubkey, pay-to-pubkey-alt, pay-to-pubkey-hash,
pay-to-pubkey-hash-alt, pay-to-script-hash, multisig, null-data,
stake-submission, first match winning; if none match, the script is fully
parsed, a parse failure classifies NonStandard, and otherwise
stake-generation, stake-revocation and stake-change are tested in that order
on the decoded operations, with no match classifying NonStandard. -/
theorem c1_classifier_priority (s : List Nat) :
    typeOfScript 0 s =
      (if isPubKeyScript s then PubKeyTy
       else if isPubKeyAltScript s then PubkeyAltTy
       else if isPubKeyHashScript s then PubKeyHashTy
       else if isPubKeyHashAltScript s then PubkeyHashAltTy
       else if isScriptHashScript s then ScriptHashTy
       else if isMultisigScript 0 s then MultiSigTy
       else if isNullDataScript 0 s then NullDataTy
       else if isStakeSubmissionScript 0 s then StakeSubmissionTy
       else
         match parseScript s with
         | none => NonStandardTy
         | some pops =>
           if isStakeGen pops then StakeGenTy
           else if isStakeRevocation pops then StakeRevocationTy
           else if isSStxChange pops then StakeSubChangeTy
           else NonStandardTy) := rfl

/-- C2: for every script version other than 0 and every byte string,
`GetScriptClass` and `typeOfScript` return NonStandard without inspecting the
script content. -/
theorem c2_nonzero_version_nonstandard (v : Nat) (s : List Nat) (hv : v ≠ 0) :
    typeOfScript v s = NonStandardTy ∧ GetScriptClass v s = NonStandardTy := by
  constructor
  · rw [typeOfScript, if_pos hv]
  · unfold GetScriptClass DefaultScriptVersion
    rw [if_pos hv]

/-- Witness for C2 at version 1 on a byte string that classifies as a standard
pay-to-pubkey-hash under version 0. -/
theorem c2_nonzero_version_nonstandard_witness :
    (1 : Nat) ≠ 0 ∧
    (typeOfScript 1 p2pkhExample = NonStandardTy ∧
     GetScriptClass 1 p2pkhExample = NonStandardTy) ∧
    typeOfScript 0 p2pkhExample = PubKeyHashTy :=
  ⟨by decide, c2_nonzero_version_nonstandard 1 p2pkhExample (by decide),
   by decide⟩

/-- C7: the claim asserts the `String` method returns "Invalid" for every
out-of-range class value and never indexes the name table out of range; in
fact the guard uses a strict comparison against the table length, so the
first out-of-range value 12 slips through and the lookup
`scriptClassToName[12]` is an out-of-range index — a runtime panic, modelled
by `none`.  Values 13 and above do return "Invalid", and all twelve defined
classes return their canonical lowercase names. -/
theorem c7_string_table_off_by_one :
    scriptClassString 12 = none ∧
    scriptClassString 13 = some "Invalid" ∧
    scriptClassString 255 = some "Invalid" ∧
    scriptClassString NonStandardTy = some "nonstandard" ∧
    scriptClassString PubKeyTy = some "pubkey" ∧
    scriptClassString PubkeyAltTy = some "pubkeyalt" ∧
    scriptClassString PubKeyHashTy = some "pubkeyhash" ∧
    scriptClassString PubkeyHashAltTy = some "pubkeyhashalt" ∧
    scriptClassString ScriptHashTy = some "scripthash" ∧
    scriptClassString MultiSigTy = some "multisig" ∧
    scriptClassString NullDataTy = some "nulldata" ∧
    scriptClassString StakeSubmissionTy = some "stakesubmission" ∧
    scriptClassString StakeGenTy = some "stakegen" ∧
    scriptClassString StakeRevocationTy = some "stakerevoke" ∧
    scriptClassString StakeSubChangeTy = some "sstxchange" :=
  ⟨rfl, rfl, rfl, rfl, rfl, rfl, rfl, rfl, rfl, rfl, rfl, rfl, rfl, rfl, rfl⟩

/-- C8: the claim asserts `MultisigRedeemScriptFromScriptSig` never panics;
in fact on the empty script (the one input that parses to zero operations)
the source evaluates `pops[len(pops)-1]`, an out-of-range index — a runtime
panic, modelled by the outer `none`.  A script that fails to parse yields a
recoverable error, and a parseable non-empty script yields the final
operation's pushed data. -/
theorem c8_redeem_script_panics_on_empty :
    MultisigRedeemScriptFromScriptSig [] = none ∧
    MultisigRedeemScriptFromScriptSig [OP_DATA_1] = some (.error ()) ∧
    MultisigRedeemScriptFromScriptSig [OP_1] = some (.ok none) ∧
    MultisigRedeemScriptFromScriptSig (OP_DATA_20 :: List.replicate 20 5) =
      some (.ok (some (List.replicate 20 5))) :=
  ⟨rfl, rfl, rfl, rfl⟩

/-! ## Helper lemmas about the matchers -/

/-- A plain (non-push) first opcode: `OP_RETURN`. -/
theorem nextToken_op_return (t : List Nat) :
    nextToken (OP_RETURN :: t) = some (⟨OP_RETURN, none⟩, t) := by
  simp [nextToken, OP_RETURN, OP_PUSHDATA1, OP_PUSHDATA2, OP_PUSHDATA4]

/-- Decoding an `OP_PUSHDATA2` operation whose declared length is available. -/
theorem nextToken_pushdata2 (l0 l1 : Nat) (r : List Nat)
    (h : l0 + l1 * 256 ≤ r.length) :
    nextToken (OP_PUSHDATA2 :: l0 :: l1 :: r) =
      some (⟨OP_PUSHDATA2, some (r.take (l0 + l1 * 256))⟩,
            r.drop (l0 + l1 * 256)) := by
  have h' : ¬ r.length < l0 + l1 * 256 := Nat.not_lt.mpr h
  simp [nextToken, OP_PUSHDATA1, OP_PUSHDATA2, OP_PUSHDATA4, h']

/-- A script whose first opcode is `OP_RETURN` is never accepted by the
multisig matcher (the first token must be a small integer). -/
theorem multisig_op_return (t : List Nat) (b : Bool) :
    (extractMultisigScriptDetails 0 (OP_RETURN :: t) b).valid = false := by
  rw [extractMultisigScriptDetails, if_neg (by decide)]
  split
  · rfl
  · rw [nextToken_op_return]
    dsimp only
    rw [if_pos (by decide)]

/-- The pay-to-pubkey matcher requires length 35 or 67. -/
theorem isPubKeyScript_length (s : List Nat) (h35 : s.length ≠ 35)
    (h67 : s.length ≠ 67) : isPubKeyScript s = false := by
  simp [isPubKeyScript, extractPubKey, extractCompressedPubKey,
    extractUncompressedPubKey, h35, h67]

/-- The pay-to-alt-pubkey matcher requires length 35 or 36. -/
theorem isPubKeyAltScript_length (s : List Nat) (h35 : s.length ≠ 35)
    (h36 : s.length ≠ 36) : isPubKeyAltScript s = false := by
  simp [isPubKeyAltScript, extractPubKeyAltDetails, h35, h36]

/-- The pay-to-pubkey-hash matcher requires length 25. -/
theorem isPubKeyHashScript_length (s : List Nat) (h : s.length ≠ 25) :
    isPubKeyHashScript s = false := by
  simp [isPubKeyHashScript, extractPubKeyHash, h]

/-- The pay-to-alt-pubkey-hash matcher requires length 26. -/
theorem isPubKeyHashAltScript_length (s : List Nat) (h : s.length ≠ 26) :
    isPubKeyHashAltScript s = false := by
  simp [isPubKeyHashAltScript, extractPubKeyHashAltDetails, h]

/-- The pay-to-script-hash matcher requires length 23. -/
theorem isScriptHashScript_length (s : List Nat) (h : s.length ≠ 23) :
    isScriptHashScript s = false := by
  simp [isScriptHashScript, extractScriptHash, h]

/-- C3: a lone `OP_RETURN` classifies NullData; `OP_RETURN` followed by a
single data push whose payload is exactly 256 bytes (the maximum
data-carrier size, here in `OP_PUSHDATA2` encoding) classifies NullData;
the same script with a 257-byte payload classifies NonStandard. -/
theorem c3_nulldata_boundary :
    typeOfScript 0 [OP_RETURN] = NullDataTy ∧
    (∀ d : List Nat, d.length = 256 →
      typeOfScript 0 (OP_RETURN :: OP_PUSHDATA2 :: 0 :: 1 :: d) = NullDataTy) ∧
    (∀ d : List Nat, d.length = 257 →
      typeOfScript 0 (OP_RETURN :: OP_PUSHDATA2 :: 1 :: 1 :: d) =
        NonStandardTy) := by
  refine ⟨by decide, ?_, ?_⟩
  · intro d hd
    have hs : (OP_RETURN :: OP_PUSHDATA2 :: 0 :: 1 :: d).length = 260 := by
      simp [hd]
    have h1 := isPubKeyScript_length (OP_RETURN :: OP_PUSHDATA2 :: 0 :: 1 :: d)
      (by omega) (by omega)
    have h2 := isPubKeyAltScript_length
      (OP_RETURN :: OP_PUSHDATA2 :: 0 :: 1 :: d) (by omega) (by omega)
    have h3 := isPubKeyHashScript_length
      (OP_RETURN :: OP_PUSHDATA2 :: 0 :: 1 :: d) (by omega)
    have h4 := isPubKeyHashAltScript_length
      (OP_RETURN :: OP_PUSHDATA2 :: 0 :: 1 :: d) (by omega)
    have h5 := isScriptHashScript_length
      (OP_RETURN :: OP_PUSHDATA2 :: 0 :: 1 :: d) (by omega)
    have hms : isMultisigScript 0 (OP_RETURN :: OP_PUSHDATA2 :: 0 :: 1 :: d) =
        false := by
      simp [isMultisigScript, multisig_op_return]
    have hnd : isNullDataScript 0 (OP_RETURN :: OP_PUSHDATA2 :: 0 :: 1 :: d) =
        true := by
      rw [isNullDataScript, if_neg (by decide), if_neg (by simp),
        if_neg (by simp [hd])]
      rw [show (OP_RETURN :: OP_PUSHDATA2 :: 0 :: 1 :: d).drop 1 =
        OP_PUSHDATA2 :: 0 :: 1 :: d from rfl]
      rw [nextToken_pushdata2 0 1 d (by omega)]
      have ht : d.take (0 + 1 * 256) = d := List.take_of_length_le (by omega)
      have hdr : d.drop (0 + 1 * 256) = [] := List.drop_of_length_le (by omega)
      rw [ht, hdr]
      simp [isSmallInt, MaxDataCarrierSize, hd, OP_PUSHDATA2, OP_PUSHDATA4]
    simp [typeOfScript, h1, h2, h3, h4, h5, hms, hnd]
  · intro d hd
    have hs : (OP_RETURN :: OP_PUSHDATA2 :: 1 :: 1 :: d).length = 261 := by
      simp [hd]
    have h1 := isPubKeyScript_length (OP_RETURN :: OP_PUSHDATA2 :: 1 :: 1 :: d)
      (by omega) (by omega)
    have h2 := isPubKeyAltScript_length
      (OP_RETURN :: OP_PUSHDATA2 :: 1 :: 1 :: d) (by omega) (by omega)
    have h3 := isPubKeyHashScript_length
      (OP_RETURN :: OP_PUSHDATA2 :: 1 :: 1 :: d) (by omega)
    have h4 := isPubKeyHashAltScript_length
      (OP_RETURN :: OP_PUSHDATA2 :: 1 :: 1 :: d) (by omega)
    have h5 := isScriptHashScript_length
      (OP_RETURN :: OP_PUSHDATA2 :: 1 :: 1 :: d) (by omega)
    have hms : isMultisigScript 0 (OP_RETURN :: OP_PUSHDATA2 :: 1 :: 1 :: d) =
        false := by
      simp [isMultisigScript, multisig_op_return]
    have ht : d.take (1 + 1 * 256) = d := List.take_of_length_le (by omega)
    have hdr : d.drop (1 + 1 * 256) = [] := List.drop_of_length_le (by omega)
    have hnd : isNullDataScript 0 (OP_RETURN :: OP_PUSHDATA2 :: 1 :: 1 :: d) =
        false := by
      rw [isNullDataScript, if_neg (by decide), if_neg (by simp),
        if_neg (by simp [hd])]
      rw [show (OP_RETURN :: OP_PUSHDATA2 :: 1 :: 1 :: d).drop 1 =
        OP_PUSHDATA2 :: 1 :: 1 :: d from rfl]
      rw [nextToken_pushdata2 1 1 d (by omega)]
      rw [ht, hdr]
      simp [isSmallInt, MaxDataCarrierSize, hd, OP_PUSHDATA2, OP_PUSHDATA4]
    have hss : isStakeSubmissionScript 0
        (OP_RETURN :: OP_PUSHDATA2 :: 1 :: 1 :: d) = false := by
      simp [isStakeSubmissionScript, extractStakePubKeyHash,
        extractStakeScriptHash, OP_RETURN, OP_SSTX]
    have hparse : parseScript (OP_RETURN :: OP_PUSHDATA2 :: 1 :: 1 :: d) =
        some [⟨OP_RETURN, none⟩, ⟨OP_PUSHDATA2, some d⟩] := by
      rw [parseScript_cons, nextToken_op_return]
      dsimp only
      rw [parseScript_cons, nextToken_pushdata2 1 1 d (by omega)]
      rw [ht, hdr]
      rfl
    simp [typeOfScript, h1, h2, h3, h4, h5, hms, hnd, hss, hparse,
      isStakeGen, isStakeRevocation, isSStxChange]

/-- Every decoded token leaves a suffix of the script unconsumed. -/
theorem nextToken_suffix {s : List Nat} {p : POp} {rest : List Nat}
    (h : nextToken s = some (p, rest)) : rest <:+ s := by
  match s with
  | [] => simp [nextToken] at h
  | op :: tail =>
    simp only [nextToken] at h
    repeat' split at h
    all_goals simp at h
    all_goals obtain ⟨h1, h2⟩ := h
    all_goals subst h2
    · exact (List.drop_suffix _ _).trans ⟨[op], rfl⟩
    · rename_i l r c
      exact (List.drop_suffix _ _).trans ⟨[op, l], rfl⟩
    · rename_i l0 l1 r c
      exact (List.drop_suffix _ _).trans ⟨[op, l0, l1], rfl⟩
    · rename_i l0 l1 l2 l3 r c
      exact (List.drop_suffix _ _).trans ⟨[op, l0, l1, l2, l3], rfl⟩
    · exact ⟨[op], rfl⟩

/-- The remainder after the multisig pubkey-consuming loop breaks is a suffix
of the loop's input. -/
theorem msLoop_suffix : ∀ (f : Nat) (s : List Nat) (k : Nat)
    (acc : List (List Nat)) {n : Nat} {keys : List (List Nat)} {bp : POp}
    {brest : List Nat},
    msLoop f s k acc = some (n, keys, bp, brest) → brest <:+ s := by
  intro f
  induction f with
  | zero =>
    intro s k acc n keys bp brest h
    match s with
    | [] => simp [msLoop] at h
    | a :: t => simp [msLoop] at h
  | succ f ih =>
    intro s k acc n keys bp brest h
    match s with
    | [] => simp [msLoop] at h
    | a :: t =>
      rw [msLoop] at h
      cases hnt : nextToken (a :: t) with
      | none => rw [hnt] at h; simp at h
      | some pr =>
        obtain ⟨p, rest⟩ := pr
        rw [hnt] at h
        dsimp only at h
        cases hd : p.data with
        | some d =>
          rw [hd] at h
          dsimp only at h
          split at h
          · exact (ih rest (k + 1) (acc ++ [d]) h).trans (nextToken_suffix hnt)
          · simp at h
            obtain ⟨-, -, -, h4⟩ := h
            subst h4
            exact nextToken_suffix hnt
        | none =>
          rw [hd] at h
          dsimp only at h
          simp at h
          obtain ⟨-, -, -, h4⟩ := h
          subst h4
          exact nextToken_suffix hnt

/-- When the multisig pubkey loop breaks at token `bp` and the remainder
parses, the loop's input parses to the consumed pubkey tokens followed by
`bp` and the remainder's operations; the key counter advances by exactly the
number of consumed tokens. -/
theorem msLoop_parse : ∀ (f : Nat) (s : List Nat) (k : Nat)
    (acc : List (List Nat)) {n : Nat} {keys : List (List Nat)} {bp : POp}
    {brest : List Nat} {tail : List POp},
    s.length ≤ f →
    msLoop f s k acc = some (n, keys, bp, brest) →
    parseScript brest = some tail →
    ∃ keyOps : List POp, parseScript s = some (keyOps ++ bp :: tail) ∧
      keyOps.length + k = n := by
  intro f
  induction f with
  | zero =>
    intro s k acc n keys bp brest tail hf h hb
    have hs : s = [] := List.eq_nil_of_length_eq_zero (Nat.le_zero.mp hf)
    subst hs
    simp [msLoop] at h
  | succ f ih =>
    intro s k acc n keys bp brest tail hf h hb
    match s with
    | [] => simp [msLoop] at h
    | a :: t =>
      rw [msLoop] at h
      cases hnt : nextToken (a :: t) with
      | none => rw [hnt] at h; simp at h
      | some pr =>
        obtain ⟨p, rest⟩ := pr
        rw [hnt] at h
        dsimp only at h
        have hrl : rest.length ≤ f := by
          have h1 := nextToken_length hnt
          simp only [List.length_cons] at h1 hf
          omega
        cases hd : p.data with
        | some d =>
          rw [hd] at h
          dsimp only at h
          split at h
          · obtain ⟨keyOps, hp, hk⟩ := ih rest (k + 1) (acc ++ [d]) hrl h hb
            refine ⟨p :: keyOps, ?_, ?_⟩
            · rw [parseScript_cons, hnt]
              dsimp only
              simp [hp]
            · simp only [List.length_cons]
              omega
          · simp at h
            obtain ⟨h1, h2, h3, h4⟩ := h
            subst h1; subst h3; subst h4
            refine ⟨[], ?_, by simp⟩
            rw [parseScript_cons, hnt]
            dsimp only
            simp [hb]
        | none =>
          rw [hd] at h
          dsimp only at h
          simp at h
          obtain ⟨h1, h2, h3, h4⟩ := h
          subst h1; subst h3; subst h4
          refine ⟨[], ?_, by simp⟩
          rw [parseScript_cons, hnt]
          dsimp only
          simp [hb]

/-- C4 counterexample: the claim says a version-0 script whose decoded
operation sequence has fewer than 4 operations is never accepted by the
multisig matcher; the degenerate zero-pubkey script
`OP_1 OP_0 OP_CHECKMULTISIG` decodes to exactly 3 operations yet
`extractMultisigScriptDetails` accepts it and the classifier reports
MultiSig. -/
theorem c4_multisig_counterexample :
    parseScript [OP_1, OP_0, OP_CHECKMULTISIG] =
      some [⟨OP_1, none⟩, ⟨OP_0, none⟩, ⟨OP_CHECKMULTISIG, none⟩] ∧
    (extractMultisigScriptDetails 0 [OP_1, OP_0, OP_CHECKMULTISIG] false) =
      ⟨1, 0, [], true⟩ ∧
    isMultisigScript 0 [OP_1, OP_0, OP_CHECKMULTISIG] = true ∧
    typeOfScript 0 [OP_1, OP_0, OP_CHECKMULTISIG] = MultiSigTy := by
  refine ⟨by decide, by decide, by decide, by decide⟩

/-- C4 (amended): every script the version-0 multisig matcher accepts parses,
and its decoded operation sequence has exactly `numPubKeys + 3` operations
(the required-signature push, the pubkey pushes, the key-count push and
`OP_CHECKMULTISIG`); hence fewer than 4 decoded operations is possible for an
accepted script only in the degenerate zero-pubkey case, and fewer than 3
never. -/
theorem c4_multisig_operation_count (s : List Nat) (b : Bool)
    (h : (extractMultisigScriptDetails 0 s b).valid = true) :
    ∃ pops : List POp, parseScript s = some pops ∧
      pops.length = (extractMultisigScriptDetails 0 s b).numPubKeys + 3 := by
  match s with
  | [] =>
    rw [extractMultisigScriptDetails, if_neg (by decide),
      if_pos (by simp : ([] : List Nat).length < 3 ∨
        ([] : List Nat).getLast? ≠ some OP_CHECKMULTISIG)] at h
    simp at h
  | a :: t =>
    rw [extractMultisigScriptDetails, if_neg (by decide)] at h
    by_cases hc : (a :: t).length < 3 ∨ (a :: t).getLast? ≠ some OP_CHECKMULTISIG
    · rw [if_pos hc] at h
      simp at h
    rw [if_neg hc] at h
    cases hnt : nextToken (a :: t) with
    | none =>
      rw [hnt] at h
      simp at h
    | some pr =>
      obtain ⟨p, rest⟩ := pr
      rw [hnt] at h
      dsimp only at h
      by_cases hsm : isSmallInt p.op = true
      case neg =>
        rw [if_pos hsm] at h
        simp at h
      rw [if_neg (not_not_intro hsm)] at h
      cases hml : msLoop rest.length rest 0 [] with
      | none =>
        rw [hml] at h
        simp at h
      | some q =>
        obtain ⟨n, keys, bp, brest⟩ := q
        rw [hml] at h
        dsimp only at h
        by_cases hbs : isSmallInt bp.op = true ∧ asSmallInt bp.op = n
        case neg =>
          rw [if_pos hbs] at h
          simp at h
        rw [if_neg (not_not_intro hbs)] at h
        by_cases hb1 : brest.length ≠ 1
        · rw [if_pos hb1] at h
          simp at h
        rw [if_neg hb1] at h
        have hc2 : (a :: t).getLast? = some OP_CHECKMULTISIG :=
          not_not.mp (not_or.mp hc).2
        obtain ⟨x, hx⟩ := List.length_eq_one.mp (not_not.mp hb1)
        have hsuf : brest <:+ (a :: t) :=
          (msLoop_suffix rest.length rest 0 [] hml).trans (nextToken_suffix hnt)
        obtain ⟨u, hu⟩ := hsuf
        have hlast : (a :: t).getLast? = some x := by
          rw [← hu, hx, List.getLast?_append_of_ne_nil _ (by simp)]
          rfl
        have hxop : x = OP_CHECKMULTISIG := by
          have h2 := hc2
          rw [hlast] at h2
          exact Option.some.inj h2
        have hbp : parseScript brest = some [⟨x, none⟩] := by
          rw [hx, hxop]
          decide
        obtain ⟨keyOps, hparse, hklen⟩ :=
          msLoop_parse rest.length rest 0 [] (le_refl _) hml hbp
        have hps : parseScript (a :: t) =
            some (p :: (keyOps ++ bp :: [⟨x, none⟩])) := by
          rw [parseScript_cons, hnt]
          dsimp only
          simp [hparse]
        refine ⟨_, hps, ?_⟩
        have hval : extractMultisigScriptDetails 0 (a :: t) b =
            ⟨asSmallInt p.op, n, if b then keys else [], true⟩ := by
          rw [extractMultisigScriptDetails, if_neg (by decide), if_neg hc, hnt]
          dsimp only
          rw [if_neg (not_not_intro hsm), hml]
          dsimp only
          rw [if_neg (not_not_intro hbs), if_neg hb1]
        rw [hval]
        simp only [List.length_cons, List.length_append, List.length_nil]
        omega

/-- Witness for C4 (amended) at a standard 1-of-1 multisig script. -/
theorem c4_multisig_operation_count_witness :
    (extractMultisigScriptDetails 0 ms11Example false).valid = true ∧
    ∃ pops : List POp, parseScript ms11Example = some pops ∧
      pops.length =
        (extractMultisigScriptDetails 0 ms11Example false).numPubKeys + 3 :=
  ⟨by decide, c4_multisig_operation_count ms11Example false (by decide)⟩

/-- A script the classifier reports as MultiSig is accepted by the multisig
matcher. -/
theorem typeOfScript_eq_multisig {s : List Nat}
    (h : typeOfScript 0 s = MultiSigTy) : isMultisigScript 0 s = true := by
  unfold typeOfScript at h
  rw [if_neg (by decide)] at h
  by_cases c1 : isPubKeyScript s = true
  · rw [if_pos c1] at h
    exact absurd h (by decide)
  rw [if_neg c1] at h
  by_cases c2 : isPubKeyAltScript s = true
  · rw [if_pos c2] at h
    exact absurd h (by decide)
  rw [if_neg c2] at h
  by_cases c3 : isPubKeyHashScript s = true
  · rw [if_pos c3] at h
    exact absurd h (by decide)
  rw [if_neg c3] at h
  by_cases c4 : isPubKeyHashAltScript s = true
  · rw [if_pos c4] at h
    exact absurd h (by decide)
  rw [if_neg c4] at h
  by_cases c5 : isScriptHashScript s = true
  · rw [if_pos c5] at h
    exact absurd h (by decide)
  rw [if_neg c5] at h
  by_cases c6 : isMultisigScript 0 s = true
  · exact c6
  rw [if_neg c6] at h
  by_cases c7 : isNullDataScript 0 s = true
  · rw [if_pos c7] at h
    exact absurd h (by decide)
  rw [if_neg c7] at h
  by_cases c8 : isStakeSubmissionScript 0 s = true
  · rw [if_pos c8] at h
    exact absurd h (by decide)
  rw [if_neg c8] at h
  split at h
  · exact absurd h (by decide)
  · split_ifs at h <;> exact absurd h (by decide)

/-- The first token of a script accepted by the multisig matcher is the
small-integer push recorded as the required-signature count. -/
theorem multisig_first_token (s : List Nat) (b : Bool)
    (h : (extractMultisigScriptDetails 0 s b).valid = true) :
    ∃ p rest, nextToken s = some (p, rest) ∧ isSmallInt p.op = true ∧
      (extractMultisigScriptDetails 0 s b).requiredSigs = asSmallInt p.op := by
  match s with
  | [] =>
    rw [extractMultisigScriptDetails, if_neg (by decide),
      if_pos (by simp : ([] : List Nat).length < 3 ∨
        ([] : List Nat).getLast? ≠ some OP_CHECKMULTISIG)] at h
    simp at h
  | a :: t =>
    rw [extractMultisigScriptDetails, if_neg (by decide)] at h
    by_cases hc : (a :: t).length < 3 ∨ (a :: t).getLast? ≠ some OP_CHECKMULTISIG
    · rw [if_pos hc] at h
      simp at h
    rw [if_neg hc] at h
    cases hnt : nextToken (a :: t) with
    | none =>
      rw [hnt] at h
      simp at h
    | some pr =>
      obtain ⟨p, rest⟩ := pr
      rw [hnt] at h
      dsimp only at h
      by_cases hsm : isSmallInt p.op = true
      case neg =>
        rw [if_pos hsm] at h
        simp at h
      rw [if_neg (not_not_intro hsm)] at h
      cases hml : msLoop rest.length rest 0 [] with
      | none =>
        rw [hml] at h
        simp at h
      | some q =>
        obtain ⟨n, keys, bp, brest⟩ := q
        rw [hml] at h
        dsimp only at h
        by_cases hbs : isSmallInt bp.op = true ∧ asSmallInt bp.op = n
        case neg =>
          rw [if_pos hbs] at h
          simp at h
        rw [if_neg (not_not_intro hbs)] at h
        by_cases hb1 : brest.length ≠ 1
        · rw [if_pos hb1] at h
          simp at h
        rw [if_neg hb1] at h
        refine ⟨p, rest, rfl, hsm, ?_⟩
        rw [extractMultisigScriptDetails, if_neg (by decide), if_neg hc, hnt]
        dsimp only
        rw [if_neg (not_not_intro hsm), hml]
        dsimp only
        rw [if_neg (not_not_intro hbs), if_neg hb1]

/-- The operation sequence of a parseable script starts with its first
token. -/
theorem parseScript_head {s : List Nat} {pops : List POp} {p : POp}
    {rest : List Nat} (hp : parseScript s = some pops)
    (hnt : nextToken s = some (p, rest)) :
    ∃ ps, pops = p :: ps ∧ parseScript rest = some ps := by
  match s with
  | [] => simp [nextToken] at hnt
  | a :: t =>
    rw [parseScript_cons, hnt] at hp
    dsimp only at hp
    cases hpr : parseScript rest with
    | none =>
      rw [hpr] at hp
      simp at hp
    | some ps =>
      rw [hpr] at hp
      simp at hp
      exact ⟨ps, hp.symm, rfl⟩

/-- `expectedInputs` on a MultiSig-classified script reads the first decoded
operation. -/
theorem expectedInputs_multisig (pops : List POp) :
    expectedInputs pops MultiSigTy 0 =
      Int.ofNat (asSmallInt (pops.headD ⟨0, none⟩).op) := by
  simp [expectedInputs, MultiSigTy, PubKeyTy, PubKeyHashTy, StakeSubmissionTy,
    StakeGenTy, StakeRevocationTy, StakeSubChangeTy, ScriptHashTy]

/-- `expectedInputs` on a pay-to-script-hash script (the script itself not
counted). -/
theorem expectedInputs_scripthash (pops : List POp) :
    expectedInputs pops ScriptHashTy 0 = 1 := by
  simp [expectedInputs, MultiSigTy, PubKeyTy, PubKeyHashTy, StakeSubmissionTy,
    StakeGenTy, StakeRevocationTy, StakeSubChangeTy, ScriptHashTy]

/-- C5 counterexample: the claim says a multisig pubkey script contributes
the encoded required-signature count plus one extra input; for the accepted
pair (empty signature script, standard 1-of-1 multisig) the reported
expected-input count is exactly the encoded count 1, not 1 + 1. -/
theorem c5_expected_inputs_counterexample :
    CalcScriptInfo [] ms11Example false =
      .ok ⟨MultiSigTy, 0, 1, 1⟩ ∧
    (extractMultisigScriptDetails 0 ms11Example false).requiredSigs = 1 ∧
    (1 : Int) ≠ 1 + 1 :=
  ⟨rfl, rfl, by decide⟩

/-- C5 (amended): for every script pair accepted by `CalcScriptInfo` whose
pubkey script classifies MultiSig, the reported expected-input count equals
the encoded required-signature count exactly (no extra input: dcrd's
multisig-verify opcode does not pop an extra stack item); when the pubkey
script classifies pay-to-script-hash in legacy-compat mode and the redeem
script carried as the final push of the signature script classifies
MultiSig, the count is 1 (for the script-hash input) plus the redeem
script's encoded required-signature count. -/
theorem c5_multisig_expected_inputs (sig pk : List Nat) (b : Bool)
    (si : ScriptInfo) (hok : CalcScriptInfo sig pk b = .ok si) :
    (typeOfScript 0 pk = MultiSigTy →
      si.expectedInputsCount =
        Int.ofNat (extractMultisigScriptDetails 0 pk false).requiredSigs) ∧
    (∀ (sigPops : List POp) (lastPop : POp),
      parseScript sig = some sigPops →
      sigPops.getLast? = some lastPop →
      typeOfScript 0 pk = ScriptHashTy → b = true →
      typeOfScript 0 (lastPop.data.getD []) = MultiSigTy →
      si.expectedInputsCount = 1 + Int.ofNat
        (extractMultisigScriptDetails 0 (lastPop.data.getD [])
          false).requiredSigs) := by
  unfold CalcScriptInfo at hok
  cases hsp : parseScript sig with
  | none =>
    rw [hsp] at hok
    simp at hok
  | some sigPops =>
  rw [hsp] at hok
  cases hpp : parseScript pk with
  | none =>
    rw [hpp] at hok
    simp at hok
  | some pkPops =>
  rw [hpp] at hok
  dsimp only at hok
  by_cases hpo : isPushOnly sigPops = true
  case neg =>
    rw [if_pos hpo] at hok
    simp at hok
  rw [if_neg (not_not_intro hpo)] at hok
  constructor
  · intro hcls
    rw [hcls] at hok
    rw [if_neg (by decide)] at hok
    dsimp only at hok
    rw [if_neg (by simp [MultiSigTy, ScriptHashTy])] at hok
    have hms : isMultisigScript 0 pk = true := typeOfScript_eq_multisig hcls
    obtain ⟨p, rest, hnt, hsm, hreq⟩ := multisig_first_token pk false hms
    obtain ⟨ps, hpops, -⟩ := parseScript_head hpp hnt
    have hsi := Except.ok.inj hok
    rw [← hsi]
    dsimp only
    rw [expectedInputs_multisig, hpops, hreq]
    rfl
  · intro sigPops' lastPop hsp' hlast hsh hb hred
    cases Option.some.inj hsp'
    rw [hsh] at hok
    rw [if_neg (by decide)] at hok
    dsimp only at hok
    rw [if_pos ⟨Or.inl rfl, hb⟩] at hok
    rw [hlast] at hok
    dsimp only at hok
    cases hrp : parseScript (lastPop.data.getD []) with
    | none =>
      rw [hrp] at hok
      simp at hok
    | some shPops =>
      rw [hrp] at hok
      dsimp only at hok
      rw [hred] at hok
      rw [expectedInputs_multisig shPops, expectedInputs_scripthash pkPops]
        at hok
      have hcond : ¬ (Int.ofNat
          (asSmallInt (shPops.headD ⟨0, none⟩).op) = (-1 : Int)) :=
        by simp only [Int.ofNat_eq_coe]; omega
      rw [if_neg hcond] at hok
      have hms : isMultisigScript 0 (lastPop.data.getD []) = true :=
        typeOfScript_eq_multisig hred
      obtain ⟨p, rest, hnt, hsm, hreq⟩ :=
        multisig_first_token (lastPop.data.getD []) false hms
      obtain ⟨ps, hpops, -⟩ := parseScript_head hrp hnt
      have hsi := Except.ok.inj hok
      rw [← hsi]
      dsimp only
      rw [hpops, hreq]
      rfl

/-- Witness for C5 (amended): a direct 1-of-1 multisig pair and a
pay-to-script-hash pair redeeming that multisig script in legacy-compat
mode. -/
theorem c5_multisig_expected_inputs_witness :
    (CalcScriptInfo [] ms11Example false = .ok ⟨MultiSigTy, 0, 1, 1⟩ ∧
      typeOfScript 0 ms11Example = MultiSigTy ∧
      (⟨MultiSigTy, 0, 1, 1⟩ : ScriptInfo).expectedInputsCount =
        Int.ofNat
          (extractMultisigScriptDetails 0 ms11Example false).requiredSigs) ∧
    (CalcScriptInfo (OP_DATA_37 :: ms11Example) p2shExample true =
        .ok ⟨ScriptHashTy, 1, 2, 1⟩ ∧
      typeOfScript 0 p2shExample = ScriptHashTy ∧
      (⟨ScriptHashTy, 1, 2, 1⟩ : ScriptInfo).expectedInputsCount = 1 +
        Int.ofNat
          (extractMultisigScriptDetails 0 ms11Example false).requiredSigs) :=
  ⟨⟨rfl, rfl,
    (c5_multisig_expected_inputs [] ms11Example false ⟨MultiSigTy, 0, 1, 1⟩
      rfl).1 rfl⟩,
   ⟨rfl, rfl, by
    have h := (c5_multisig_expected_inputs (OP_DATA_37 :: ms11Example)
      p2shExample true ⟨ScriptHashTy, 1, 2, 1⟩ rfl).2
      [⟨OP_DATA_37, some ms11Example⟩] ⟨OP_DATA_37, some ms11Example⟩
      rfl rfl rfl rfl rfl
    exact h⟩⟩

/-- An exact 20-operation atomic-swap contract (secret size 32, lock time
100). -/
def swapExample : List Nat :=
  [OP_IF, OP_SIZE, OP_DATA_1, 32, OP_EQUALVERIFY, OP_SHA256, OP_DATA_32] ++
    List.replicate 32 6 ++
  [OP_EQUALVERIFY, OP_DUP, OP_HASH160, OP_DATA_20] ++ List.replicate 20 1 ++
  [OP_ELSE, OP_DATA_1, 100, OP_CHECKLOCKTIMEVERIFY, OP_DROP, OP_DUP,
   OP_HASH160, OP_DATA_20] ++ List.replicate 20 2 ++
  [OP_ENDIF, OP_EQUALVERIFY, OP_CHECKSIG]

/-- The decoded operation sequence of `swapExample`. -/
def swapExamplePops : List POp :=
  [⟨OP_IF, none⟩, ⟨OP_SIZE, none⟩, ⟨OP_DATA_1, some [32]⟩,
   ⟨OP_EQUALVERIFY, none⟩, ⟨OP_SHA256, none⟩,
   ⟨OP_DATA_32, some (List.replicate 32 6)⟩, ⟨OP_EQUALVERIFY, none⟩,
   ⟨OP_DUP, none⟩, ⟨OP_HASH160, none⟩,
   ⟨OP_DATA_20, some (List.replicate 20 1)⟩, ⟨OP_ELSE, none⟩,
   ⟨OP_DATA_1, some [100]⟩, ⟨OP_CHECKLOCKTIMEVERIFY, none⟩, ⟨OP_DROP, none⟩,
   ⟨OP_DUP, none⟩, ⟨OP_HASH160, none⟩,
   ⟨OP_DATA_20, some (List.replicate 20 2)⟩, ⟨OP_ENDIF, none⟩,
   ⟨OP_EQUALVERIFY, none⟩, ⟨OP_CHECKSIG, none⟩]

/-- C6: `ExtractAtomicSwapDataPushes` returns an error exactly when the script
fails to tokenize; every tokenizable script that is not the exact
20-operation template — including one whose canonical numeric pushes fail to
decode as a script number of at most 5 bytes — yields no-match without
error; an exact-template script yields the two 20-byte hashes, the 32-byte
secret hash and the two decoded integers. -/
theorem c6_atomic_swap_asymmetry (v : Nat) (s : List Nat) :
    (ExtractAtomicSwapDataPushes v s = .error () ↔ parseScript s = none) ∧
    (∀ pops : List POp, parseScript s = some pops →
      ¬ (pops.length = 20 ∧ atomicSwapShape pops = true) →
      ExtractAtomicSwapDataPushes v s = .ok none) ∧
    (∀ pops : List POp, parseScript s = some pops →
      pops.length = 20 → atomicSwapShape pops = true →
      (swapNum (pops.getD 2 ⟨0, none⟩) = none ∨
        swapNum (pops.getD 11 ⟨0, none⟩) = none) →
      ExtractAtomicSwapDataPushes v s = .ok none) ∧
    (∀ (pops : List POp) (ss lt : Int), parseScript s = some pops →
      pops.length = 20 → atomicSwapShape pops = true →
      swapNum (pops.getD 2 ⟨0, none⟩) = some ss →
      swapNum (pops.getD 11 ⟨0, none⟩) = some lt →
      ExtractAtomicSwapDataPushes v s = .ok (some
        ⟨((pops.getD 9 ⟨0, none⟩).data).getD [],
         ((pops.getD 16 ⟨0, none⟩).data).getD [],
         ((pops.getD 5 ⟨0, none⟩).data).getD [], ss, lt⟩)) := by
  refine ⟨⟨?_, ?_⟩, ?_, ?_, ?_⟩
  · intro he
    cases hp : parseScript s with
    | none => rfl
    | some pops =>
      exfalso
      unfold ExtractAtomicSwapDataPushes at he
      rw [hp] at he
      dsimp only at he
      by_cases h20 : pops.length ≠ 20
      · rw [if_pos h20] at he
        simp at he
      rw [if_neg h20] at he
      by_cases hsh : ¬ atomicSwapShape pops = true
      · rw [if_pos hsh] at he
        simp at he
      rw [if_neg hsh] at he
      cases h2 : swapNum (pops.getD 2 ⟨0, none⟩) with
      | none =>
        rw [h2] at he
        simp at he
      | some ss =>
        rw [h2] at he
        dsimp only at he
        cases h11 : swapNum (pops.getD 11 ⟨0, none⟩) with
        | none =>
          rw [h11] at he
          simp at he
        | some lt =>
          rw [h11] at he
          simp at he
  · intro hp
    unfold ExtractAtomicSwapDataPushes
    rw [hp]
  · intro pops hp hn
    unfold ExtractAtomicSwapDataPushes
    rw [hp]
    dsimp only
    by_cases h20 : pops.length = 20
    · rw [if_neg (not_not_intro h20)]
      have hsh : ¬ atomicSwapShape pops = true := fun hs => hn ⟨h20, hs⟩
      rw [if_pos hsh]
    · rw [if_pos h20]
  · intro pops hp h20 hsh hnum
    unfold ExtractAtomicSwapDataPushes
    rw [hp]
    dsimp only
    rw [if_neg (not_not_intro h20), if_neg (not_not_intro hsh)]
    rcases hnum with h2 | h11
    · rw [h2]
    · cases hs2 : swapNum (pops.getD 2 ⟨0, none⟩) with
      | none => rfl
      | some ss =>
        dsimp only
        rw [h11]
  · intro pops ss lt hp h20 hsh h2 h11
    unfold ExtractAtomicSwapDataPushes
    rw [hp]
    dsimp only
    rw [if_neg (not_not_intro h20), if_neg (not_not_intro hsh), h2]
    dsimp only
    rw [h11]

/-- Witness for C6: a dangling data push errors, a lone `OP_RETURN` is a
tokenizable no-match, and the exact template extracts its fields. -/
theorem c6_atomic_swap_asymmetry_witness :
    (parseScript [OP_DATA_1] = none ∧
      ExtractAtomicSwapDataPushes 0 [OP_DATA_1] = .error ()) ∧
    (ExtractAtomicSwapDataPushes 0 [OP_RETURN] = .ok none) ∧
    (ExtractAtomicSwapDataPushes 0 swapExample = .ok (some
      ⟨((swapExamplePops.getD 9 ⟨0, none⟩).data).getD [],
       ((swapExamplePops.getD 16 ⟨0, none⟩).data).getD [],
       ((swapExamplePops.getD 5 ⟨0, none⟩).data).getD [], 32, 100⟩)) :=
  ⟨⟨by decide, (c6_atomic_swap_asymmetry 0 [OP_DATA_1]).1.mpr (by decide)⟩,
   (c6_atomic_swap_asymmetry 0 [OP_RETURN]).2.1 [⟨OP_RETURN, none⟩]
     (by decide) (by decide),
   (c6_atomic_swap_asymmetry 0 swapExample).2.2.2 swapExamplePops 32 100
     (by decide) (by decide) (by decide) (by decide) (by decide)⟩

/-- C9 counterexample: the claim says the script-hash flag is the top bit of
the limit field's second byte (offset 29 of the 30-byte push); for a
script-hash address with zero hash, amount and limits, that byte is 0 while
offset 27 — the final byte of the little-endian amount — carries the flag. -/
theorem c9_flag_bit_counterexample :
    GenerateSStxAddrPush (StdAddress.scriptHash (List.replicate 20 0)) 0 0 =
      some (OP_RETURN :: 30 :: (List.replicate 20 0 ++
        [0, 0, 0, 0, 0, 0, 0, 128, 0, 0])) ∧
    (List.replicate 20 (0 : Nat) ++
      [0, 0, 0, 0, 0, 0, 0, 128, 0, 0]).getD 29 0 = 0 ∧
    (List.replicate 20 (0 : Nat) ++
      [0, 0, 0, 0, 0, 0, 0, 128, 0, 0]).getD 27 0 = 128 :=
  ⟨by decide, by decide, by decide⟩

/-- The canonical push of a 30-byte payload is `OP_DATA_30` followed by the
payload. -/
theorem addData_30 (l : List Nat) (hl : l.length = 30) :
    addData l = 30 :: l := by
  unfold addData
  rw [if_neg (by omega), if_neg (by rw [hl]; simp),
    if_neg (by rw [hl]; simp), if_neg (by rw [hl]; simp),
    if_pos (by omega), hl]

/-- C9 (amended): `GenerateSStxAddrPush` for a supported address produces
`OP_RETURN` followed by a single 30-byte push laid out as the 20-byte hash,
the little-endian 8-byte amount and the little-endian 2-byte fee limit; the
script-hash flag is the top bit of the amount field's final byte (offset 27),
not of the limit field, and no flag is set for a pubkey-hash address. -/
theorem c9_sstx_addr_push_layout (hash : List Nat) (amount limits : Nat)
    (hlen : hash.length = 20) :
    GenerateSStxAddrPush (.pubKeyHash hash STEcdsaSecp256k1) amount limits =
      some (OP_RETURN :: 30 :: (hash ++ leBytes 8 (amount % 2 ^ 64) ++
        leBytes 2 (limits % 2 ^ 16))) ∧
    GenerateSStxAddrPush (.scriptHash hash) amount limits =
      some (OP_RETURN :: 30 :: (hash ++
        ((leBytes 8 (amount % 2 ^ 64)).set 7
          (((leBytes 8 (amount % 2 ^ 64)).getD 7 0) ||| 128)) ++
        leBytes 2 (limits % 2 ^ 16))) := by
  have hl8 : (leBytes 8 (amount % 2 ^ 64)).length = 8 := rfl
  have hl2 : (leBytes 2 (limits % 2 ^ 16)).length = 2 := rfl
  have hcopy : copy20 hash = hash := by
    unfold copy20
    rw [hlen]
    simp [List.take_of_length_le (le_of_eq hlen)]
  have hset : ∀ x : Nat,
      (hash ++ leBytes 8 (amount % 2 ^ 64) ++
        leBytes 2 (limits % 2 ^ 16)).set 27 x =
      hash ++ (leBytes 8 (amount % 2 ^ 64)).set 7 x ++
        leBytes 2 (limits % 2 ^ 16) := by
    intro x
    rw [List.set_append_left _ _
      (by rw [List.length_append, hlen, hl8]; omega)]
    rw [List.set_append_right _ _ (by rw [hlen]; omega)]
    rw [hlen]
  have hget :
      (hash ++ leBytes 8 (amount % 2 ^ 64) ++
        leBytes 2 (limits % 2 ^ 16)).getD 27 0 =
      (leBytes 8 (amount % 2 ^ 64)).getD 7 0 := by
    rw [List.getD_eq_getElem?_getD,
      List.getElem?_append_left
        (by rw [List.length_append, hlen, hl8]; omega),
      List.getElem?_append_right (by rw [hlen]; omega), hlen,
      ← List.getD_eq_getElem?_getD]
  have hlen30 :
      (hash ++ leBytes 8 (amount % 2 ^ 64) ++
        leBytes 2 (limits % 2 ^ 16)).length = 30 := by
    rw [List.length_append, List.length_append, hlen, hl8, hl2]
  constructor
  · unfold GenerateSStxAddrPush
    dsimp only
    rw [if_neg (by decide : ¬ STEcdsaSecp256k1 ≠ STEcdsaSecp256k1)]
    rw [if_neg Bool.false_ne_true, hcopy, addData_30 _ hlen30]
  · unfold GenerateSStxAddrPush
    dsimp only
    rw [if_pos rfl, hcopy, hget, hset]
    rw [addData_30 _ (by
      rw [List.length_append, List.length_append, List.length_set, hlen,
        hl8, hl2])]

/-- Witness for C9 (amended) at a concrete hash, amount and limits. -/
theorem c9_sstx_addr_push_layout_witness :
    (List.replicate 20 (3 : Nat)).length = 20 ∧
    (GenerateSStxAddrPush
        (.pubKeyHash (List.replicate 20 3) STEcdsaSecp256k1) 1 5 =
      some (OP_RETURN :: 30 :: (List.replicate 20 3 ++
        leBytes 8 (1 % 2 ^ 64) ++ leBytes 2 (5 % 2 ^ 16))) ∧
    GenerateSStxAddrPush (.scriptHash (List.replicate 20 3)) 1 5 =
      some (OP_RETURN :: 30 :: (List.replicate 20 3 ++
        ((leBytes 8 (1 % 2 ^ 64)).set 7
          (((leBytes 8 (1 % 2 ^ 64)).getD 7 0) ||| 128)) ++
        leBytes 2 (5 % 2 ^ 16)))) :=
  ⟨by decide, c9_sstx_addr_push_layout (List.replicate 20 3) 1 5 (by decide)⟩

/-- On the 33-byte slice checked by the Schnorr alt-pubkey shape, the general
strict-encoding check and the strict-compressed check agree (the slice can
never have the 65 bytes of an uncompressed key). -/
theorem strict_slice_eq (s : List Nat) :
    isStrictPubKeyEncoding ((s.drop 1).take 33) =
      IsStrictCompressedPubKeyEncoding ((s.drop 1).take 33) := by
  have h65 : ((s.drop 1).take 33).length ≠ 65 := by
    rw [List.length_take]
    omega
  rw [isStrictPubKeyEncoding, IsStrictCompressedPubKeyEncoding]
  exact decide_eq_decide.mpr (or_iff_left (fun hb => h65 hb.1))

/-- The alt-pubkey extractor only ever reports the Ed25519 or the
Schnorr-secp256k1 scheme. -/
theorem altDetails_sigtype {s : List Nat} {pk : List Nat} {st : Nat}
    (h : extractPubKeyAltDetails s = some (pk, st)) :
    st = STEd25519 ∨ st = STSchnorrSecp256k1 := by
  unfold extractPubKeyAltDetails at h
  split_ifs at h <;> simp at h <;>
    first
      | exact Or.inl h.2.symm
      | exact Or.inr h.2.symm

/-- A script matching neither pubkey matcher is never classified PubKey. -/
theorem typeOfScript_not_pk (s : List Nat)
    (h1 : isPubKeyScript s = false) (h2 : isPubKeyAltScript s = false) :
    typeOfScript 0 s ≠ PubKeyTy := by
  unfold typeOfScript
  rw [if_neg (by decide), if_neg (by simp [h1]), if_neg (by simp [h2])]
  split_ifs
  · decide
  · decide
  · decide
  · decide
  · decide
  · decide
  · split
    · decide
    · split_ifs <;> decide

/-- A script matching neither pubkey matcher is never classified PubKeyAlt. -/
theorem typeOfScript_not_pka (s : List Nat)
    (h1 : isPubKeyScript s = false) (h2 : isPubKeyAltScript s = false) :
    typeOfScript 0 s ≠ PubkeyAltTy := by
  unfold typeOfScript
  rw [if_neg (by decide), if_neg (by simp [h1]), if_neg (by simp [h2])]
  split_ifs
  · decide
  · decide
  · decide
  · decide
  · decide
  · decide
  · split
    · decide
    · split_ifs <;> decide

/-- C10: the staging reimplementation's extractors agree with the original
txscript extractors on every byte string, and `DetermineScriptTypeV0`
reports a pubkey class exactly when `typeOfScript` at version 0 classifies
the script PubKey or PubKeyAlt. -/
theorem c10_staging_equivalence (s : List Nat) :
    ExtractCompressedPubKeyV0 s = extractCompressedPubKey s ∧
    ExtractUncompressedPubKeyV0 s = extractUncompressedPubKey s ∧
    ExtractPubKeyV0 s = extractPubKey s ∧
    ExtractPubKeyAltDetailsV0 s = extractPubKeyAltDetails s ∧
    ((DetermineScriptTypeV0 s = STPubKeyEcdsaSecp256k1 ∨
      DetermineScriptTypeV0 s = STPubKeyEd25519 ∨
      DetermineScriptTypeV0 s = STPubKeySchnorrSecp256k1) ↔
     (typeOfScript 0 s = PubKeyTy ∨ typeOfScript 0 s = PubkeyAltTy)) := by
  have e4 : ExtractPubKeyAltDetailsV0 s = extractPubKeyAltDetails s := by
    unfold ExtractPubKeyAltDetailsV0 extractPubKeyAltDetails
    simp only [strict_slice_eq]
  refine ⟨rfl, rfl, rfl, e4, ?_⟩
  by_cases hpk : isPubKeyScript s = true
  · have hst : DetermineScriptTypeV0 s = STPubKeyEcdsaSecp256k1 := by
      unfold DetermineScriptTypeV0
      rw [if_pos (show IsPubKeyScriptV0 s = true from hpk)]
    have hty : typeOfScript 0 s = PubKeyTy := by
      unfold typeOfScript
      rw [if_neg (by decide), if_pos hpk]
    exact ⟨fun _ => Or.inl hty, fun _ => Or.inl hst⟩
  · have hpkf : isPubKeyScript s = false := by simpa using hpk
    have hV0f : ¬ IsPubKeyScriptV0 s = true := by
      show ¬ isPubKeyScript s = true
      simp [hpkf]
    by_cases halt : isPubKeyAltScript s = true
    · have hty : typeOfScript 0 s = PubkeyAltTy := by
        unfold typeOfScript
        rw [if_neg (by decide), if_neg (by simp [hpkf]), if_pos halt]
      have hIs : (extractPubKeyAltDetails s).isSome = true := halt
      obtain ⟨⟨pk, st⟩, hdet⟩ := Option.isSome_iff_exists.mp hIs
      have hV0det : ExtractPubKeyAltDetailsV0 s = some (pk, st) := by
        rw [e4]
        exact hdet
      rcases altDetails_sigtype hdet with h1 | h2
      · have hst : DetermineScriptTypeV0 s = STPubKeyEd25519 := by
          unfold DetermineScriptTypeV0
          rw [if_neg hV0f, if_pos ?_]
          unfold IsPubKeyEd25519ScriptV0
          rw [hV0det, h1]
          rfl
        exact ⟨fun _ => Or.inr hty, fun _ => Or.inr (Or.inl hst)⟩
      · have hst : DetermineScriptTypeV0 s = STPubKeySchnorrSecp256k1 := by
          unfold DetermineScriptTypeV0
          rw [if_neg hV0f, if_neg ?_, if_pos ?_]
          · unfold IsPubKeySchnorrSecp256k1ScriptV0
            rw [hV0det, h2]
            rfl
          · unfold IsPubKeyEd25519ScriptV0
            rw [hV0det, h2]
            simp
            decide
        exact ⟨fun _ => Or.inr hty, fun _ => Or.inr (Or.inr hst)⟩
    · have haltf : isPubKeyAltScript s = false := by simpa using halt
      have hIs : (extractPubKeyAltDetails s).isSome = false := haltf
      have hnone : extractPubKeyAltDetails s = none := by
        cases hdet : extractPubKeyAltDetails s with
        | none => rfl
        | some pr =>
          rw [hdet] at hIs
          simp at hIs
      have hst : DetermineScriptTypeV0 s = STNonStandard := by
        unfold DetermineScriptTypeV0
        rw [if_neg hV0f, if_neg ?_, if_neg ?_]
        · unfold IsPubKeySchnorrSecp256k1ScriptV0
          rw [e4, hnone]
          decide
        · unfold IsPubKeyEd25519ScriptV0
          rw [e4, hnone]
          decide
      constructor
      · intro hl
        rcases hl with h | h | h <;>
          (rw [hst] at h; exact absurd h (by decide))
      · intro hr
        rcases hr with h | h
        · exact absurd h (typeOfScript_not_pk s hpkf haltf)
        · exact absurd h (typeOfScript_not_pka s hpkf haltf)

set_option maxRecDepth 100000 in
/-- Witness for C3 at payloads of all ones. -/
theorem c3_nulldata_boundary_witness :
    (List.replicate 256 (1 : Nat)).length = 256 ∧
    typeOfScript 0
      (OP_RETURN :: OP_PUSHDATA2 :: 0 :: 1 :: List.replicate 256 1) =
      NullDataTy ∧
    (List.replicate 257 (1 : Nat)).length = 257 ∧
    typeOfScript 0
      (OP_RETURN :: OP_PUSHDATA2 :: 1 :: 1 :: List.replicate 257 1) =
      NonStandardTy :=
  ⟨by decide,
   c3_nulldata_boundary.2.1 (List.replicate 256 1) (by decide),
   by decide,
   c3_nulldata_boundary.2.2 (List.replicate 257 1) (by decide)⟩

end DcrdStandard
